import Mathlib

/-!
Verification development for the ESPAsyncWiFiManager captive-portal library
(src/ESPAsyncWiFiManager.cpp, src/ESPAsyncWiFiManager.h).

The C++ code is shallowly embedded: instance fields of `AsyncWiFiManager`
become fields of a state record, member functions become Lean functions on
that record, and the blocking config-portal loop of `startConfigPortal`
becomes a step function driven by a list of per-iteration environment
inputs (radio scan results, radio status, HTTP-facade events, elapsed
milliseconds).  `millis()` is modelled as a natural-number clock held in
the state; `unsigned long` subtraction wraps modulo 2^32 as on the 32-bit
targets, which the embedding keeps at every subtraction the source
performs on millis values.
-/

namespace AsyncWM

/-- `wl_status_t` value `WL_CONNECTED` (Arduino WiFi core). -/
def WL_CONNECTED : Nat := 3

/-- `wl_status_t` value `WL_CONNECT_FAILED` (Arduino WiFi core). -/
def WL_CONNECT_FAILED : Nat := 4

/-- ESP32 scan sentinel `WIFI_SCAN_RUNNING` (value -1). -/
def WIFI_SCAN_RUNNING : Int := -1

/-- ESP32 scan sentinel `WIFI_SCAN_FAILED` (value -2). -/
def WIFI_SCAN_FAILED : Int := -2

/-- `wifi_auth_mode_t` value `WIFI_AUTH_OPEN` (open network, value 0). -/
def WIFI_AUTH_OPEN : Nat := 0

/-- `#define WIFI_MANAGER_MAX_PARAMS 10` (ESPAsyncWiFiManager.h line 191):
the declared size of the `_params` array. -/
def WIFI_MANAGER_MAX_PARAMS : Nat := 10

/-- `unsigned long` modulus on the 32-bit ESP targets. -/
def UL_MOD : Nat := 4294967296

/-- Class `WiFiResult` (ESPAsyncWiFiManager.h lines 232-246): one scan
observation. `BSSID` is a byte pointer in the source, modelled as bytes. -/
structure WiFiResult where
  duplicate : Bool
  SSID : String
  encryptionType : Nat
  RSSI : Int
  BSSID : List Nat
  channel : Int
  isHidden : Bool
deriving DecidableEq

/-- `AsyncWiFiManager::getRSSIasQuality` (cpp lines 1814-1831): clamp the
RSSI to a quality percentage; the middle branch computes `2 * (RSSI + 100)`
in `int` and assigns it to the `unsigned int` result (always in (0,100)
there, so the conversion is value-preserving). -/
def getRSSIasQuality (RSSI : Int) : Nat :=
  if RSSI ≤ -100 then 0
  else if RSSI ≥ -50 then 100
  else (2 * (RSSI + 100)).toNat

/-- `AsyncWiFiManager::isIp` (cpp lines 1834-1845): walk every character,
returning false on the first one that is neither `.` nor a decimal digit. -/
def isIp (str : String) : Bool :=
  str.toList.all (fun c => c == '.' || ('0' ≤ c && c ≤ '9'))

/-- `AsyncWiFiManager::captivePortal` (cpp lines 1756-1767): the request is
302-redirected to the portal exactly when the Host header is not an IP
literal (the function then returns true). -/
def captivePortalRedirects (host : String) : Bool :=
  !(isIp host)

/-! ### The RSSI sort of `copySSIDInfo` (cpp lines 505-517)

The source runs the in-place exchange sort

    for (int i = 0; i < n; i++)
      for (int j = i + 1; j < n; j++)
        if (wifiSSIDs[j].RSSI > wifiSSIDs[i].RSSI)
          std::swap(wifiSSIDs[i], wifiSSIDs[j]);

One round of the inner loop carries the running maximum in slot `i`,
leaving the displaced previous maximum behind in slot `j` at every swap;
`bubbleMax x ys` returns that maximum together with the slots `i+1 …` as
the inner loop leaves them.  The outer loop is the recursion of
`selSortFuel`, with fuel `n` so that the definition is structural and
kernel-reducible. -/

/-- One round of the inner `j` loop, starting with `x` in slot `i`. -/
def bubbleMax (x : WiFiResult) : List WiFiResult → WiFiResult × List WiFiResult
  | [] => (x, [])
  | y :: t =>
    if x.RSSI < y.RSSI then ((bubbleMax y t).1, x :: (bubbleMax y t).2)
    else ((bubbleMax x t).1, y :: (bubbleMax x t).2)

/-- The outer `i` loop of the RSSI sort; `fuel` bounds the number of
rounds and is instantiated with the list length. -/
def selSortFuel : Nat → List WiFiResult → List WiFiResult
  | 0, l => l
  | _ + 1, [] => []
  | fuel + 1, x :: t =>
    (bubbleMax x t).1 :: selSortFuel fuel (bubbleMax x t).2

/-- The complete RSSI sort of `copySSIDInfo`. -/
def selSort (l : List WiFiResult) : List WiFiResult :=
  selSortFuel l.length l

/-! ### The duplicate marking of `copySSIDInfo` (cpp lines 519-539) -/

/-- The inner `j` loop of the dedup pass: flag every element whose SSID
equals `cssid` as duplicate. -/
def mark (cssid : String) (l : List WiFiResult) : List WiFiResult :=
  l.map (fun y => if y.SSID == cssid then { y with duplicate := true } else y)

/-- The outer `i` loop of the dedup pass: skip entries already flagged,
otherwise flag all later entries with the same SSID.  `fuel` is
instantiated with the list length. -/
def markDupsFuel : Nat → List WiFiResult → List WiFiResult
  | 0, l => l
  | _ + 1, [] => []
  | fuel + 1, x :: t =>
    if x.duplicate then x :: markDupsFuel fuel t
    else x :: markDupsFuel fuel (mark x.SSID t)

/-- The complete duplicate-marking pass of `copySSIDInfo`. -/
def markDups (l : List WiFiResult) : List WiFiResult :=
  markDupsFuel l.length l

/-- Specification form of the dedup pass: an entry is flagged exactly when
its SSID was already seen (in `seen`, or earlier in the list).  Only used
to reason about `markDups`. -/
def dupFlagSpec (seen : List String) : List WiFiResult → List WiFiResult
  | [] => []
  | x :: t =>
    { x with duplicate := decide (x.SSID ∈ seen) } :: dupFlagSpec (x.SSID :: seen) t

/-! ### Rendering (`networkListAsString`, cpp lines 365-405) -/

/-- Template `HTTP_ITEM` (ESPAsyncWiFiManager.h lines 151-156), with its
placeholders. -/
def HTTP_ITEM : String :=
  "\n<div>\n  <a href='#p' onclick='c(this)'>{v}</a>&nbsp;\n  <span class='q {i}'>{r}%</span>\n</div>\n"

/-- Placeholder `{v}` of the item template. -/
def TPL_V : String := "{v}"

/-- Placeholder `{r}` of the item template. -/
def TPL_R : String := "{r}"

/-- Placeholder `{i}` of the item template. -/
def TPL_I : String := "{i}"

/-- The body of the display loop of `networkListAsString`: substitute the
SSID, the quality percentage and the is-secured marker into `HTTP_ITEM`
(in the source's replacement order `{v}`, `{r}`, `{i}`). -/
def renderItem (w : WiFiResult) : String :=
  let item := HTTP_ITEM.replace TPL_V w.SSID
  let item := item.replace TPL_R (Nat.repr (getRSSIasQuality w.RSSI))
  item.replace TPL_I (if w.encryptionType != WIFI_AUTH_OPEN then "l" else "")

/-- The observations `networkListAsString` selects, in order: duplicates
are skipped, and an entry is rendered only when `_minimumQuality == 0 ||
_minimumQuality < quality`. -/
def networkListSelected (minimumQuality : Nat) : List WiFiResult → List WiFiResult
  | [] => []
  | w :: rest =>
    if w.duplicate then networkListSelected minimumQuality rest
    else if minimumQuality == 0 || minimumQuality < getRSSIasQuality w.RSSI then
      w :: networkListSelected minimumQuality rest
    else networkListSelected minimumQuality rest

/-- `AsyncWiFiManager::networkListAsString` (cpp lines 365-405): the pager
string accumulated by `pager += item`. -/
def networkListAsString (minimumQuality : Nat) : List WiFiResult → String
  | [] => ""
  | w :: rest =>
    if w.duplicate then networkListAsString minimumQuality rest
    else if minimumQuality == 0 || minimumQuality < getRSSIasQuality w.RSSI then
      renderItem w ++ networkListAsString minimumQuality rest
    else networkListAsString minimumQuality rest

/-! ### Parameter registry -/

/-- Arduino `String::toCharArray(buf, bufsize)` (via `String::getBytes`):
writes nothing when `bufsize` is 0, otherwise copies at most `bufsize - 1`
characters and NUL-terminates.  The result is the C-string content of the
buffer after the call (`prev` being its previous content). -/
def toCharArrayChars (value : List Char) (bufsize : Nat) (prev : List Char) : List Char :=
  if bufsize = 0 then prev else value.take (bufsize - 1)

/-- The per-parameter store step of `AsyncWiFiManager::handleWifiSave`
(cpp line 1404): `value.toCharArray(_params[i]->_value, _params[i]->_length)`. -/
def handleWifiSaveStoredValue (length : Nat) (submitted : String) (prev : List Char) : List Char :=
  toCharArrayChars submitted.toList length prev

/-- The default-value store of `AsyncWiFiManagerParameter::init`
(cpp lines 50-71): the buffer is `new char[length + 1]`, zero-filled, and
`strncpy(_value, defaultValue, length)` copies up to `length` bytes. -/
def initStoredValue (length : Nat) (defaultValue : String) : List Char :=
  defaultValue.toList.take length

/-- Effect of one `AsyncWiFiManager::addParameter` call (cpp lines
109-115): `_params[_paramsCount] = p; _paramsCount++;` — the slot written
and the new count, with no bounds check of any kind. -/
structure AddParamEffect where
  writeIndex : Nat
  newCount : Nat
deriving DecidableEq

/-- `addParameter` given the current `_paramsCount`. -/
def addParameter (paramsCount : Nat) : AddParamEffect :=
  { writeIndex := paramsCount, newCount := paramsCount + 1 }

/-! ### The connection attempt (`connectWifi` / `waitForConnectResult`,
cpp lines 858-1006) -/

/-- Radio-driver behaviour during one connection attempt:
`driverWaitResult` is what `WiFi.waitForConnectResult()` would return (the
`_connectTimeout == 0` path), and `statusAt k` is `WiFi.status()` at the
`k`-th iteration of the polling loop. -/
structure ConnectEnv where
  driverWaitResult : Nat
  statusAt : Nat → Nat

/-- The polling loop of `waitForConnectResult` (cpp lines 985-1004):
iteration `k` reads the status, stops once `millis() > start +
_connectTimeout` (with `delay(100)` per iteration, `millis()` at iteration
`k` is `start + 100 * k`) or once the status is `WL_CONNECTED` or
`WL_CONNECT_FAILED`, and returns the last observed status. -/
def waitPoll (connectTimeout : Nat) (statusAt : Nat → Nat) (k : Nat) : Nat :=
  let status := statusAt k
  if connectTimeout < 100 * k then status
  else if status == WL_CONNECTED || status == WL_CONNECT_FAILED then status
  else waitPoll connectTimeout statusAt (k + 1)
termination_by connectTimeout + 100 - 100 * k
decreasing_by omega

/-- `AsyncWiFiManager::waitForConnectResult` (cpp lines 977-1006). -/
def waitForConnectResult (connectTimeout : Nat) (env : ConnectEnv) : Nat :=
  if connectTimeout == 0 then env.driverWaitResult
  else waitPoll connectTimeout env.statusAt 0

/-- The `WiFi.begin` path `connectWifi` chooses (cpp lines 875-909):
explicit credentials after a forced disconnect when the ssid is non-empty,
a disconnect-then-bare-begin fast path when the driver remembers an SSID,
and a bare begin otherwise. -/
inductive BeginPath where
  | explicitCreds
  | rememberedCreds
  | storedCreds
deriving DecidableEq

/-- The branch structure of cpp lines 875-909 (`ssid != ""`, then
`WiFi.SSID().length() > 0`). -/
def connectWifiPath (ssid : String) (rememberedSSIDLength : Nat) : BeginPath :=
  if ssid != "" then .explicitCreds
  else if 0 < rememberedSSIDLength then .rememberedCreds
  else .storedCreds

/-- `AsyncWiFiManager::connectWifi` (cpp lines 858-926): apply static IP
config, choose a `WiFi.begin` path per `connectWifiPath` (pure driver side
effects, reflected in the driver behaviour `env`), then wait for the
result under the configured connect timeout; the returned status is that
wait's result. The WPS retry is compiled out (`NO_EXTRA_4K_HEAP` unset). -/
def connectWifi (connectTimeout : Nat) (env : ConnectEnv) : Nat :=
  waitForConnectResult connectTimeout env

/-! ### The blocking portal session (`startConfigPortal`, cpp lines 729-856) -/

/-- The configuration fixed before/at portal start (fields of
`AsyncWiFiManager` that the portal loop only reads). -/
structure Config where
  configPortalTimeout : Nat
  configPortalStart : Nat
  connectTimeout : Nat
  tryConnectDuringConfigPortal : Bool
  shouldBreakAfterConfig : Bool
  removeDuplicateAPs : Bool
  hasSaveCallback : Bool
  nvsNetwork : String

/-- The mutable state of the portal session: the manager's instance fields
touched by the loop, the `try_scan` function-local static of `scan()`, the
ambient `millis()` clock (`now`), and observation counters for the side
effects the claims talk about (save-callback invocations, `connectWifi`
calls, station disconnects). -/
structure WMState where
  now : Nat
  timeNow : Nat
  border : Nat
  apOn : Bool
  foundOnScan : Bool
  scannow : Nat
  connect : Bool
  shouldscan : Bool
  wifiSSIDscan : Bool
  tryScan : Bool
  wifiSSIDs : List WiFiResult
  wifiSSIDCount : Int
  connectedDuringConfigPortal : Bool
  wifiStatusConnected : Bool
  saveCallbackCalls : Nat
  connectAttempts : Nat
  disconnects : Nat
deriving DecidableEq

/-- `AsyncWiFiManager::copySSIDInfo` (cpp lines 435-541) on the scan count
`n` and the driver's per-index network info `scanned`: everything is
guarded by `n > 0`; inside, the batch is replaced by the first `n`
observations with cleared duplicate flags, `foundOnScan` is or-ed with the
comparison against the stored network name, a miss resets the AP timer
(`time_now = millis(); ap_on = false; border = 2000`), `shouldscan` is
cleared, the batch is RSSI-sorted, and duplicates are flagged when
`_removeDuplicateAPs` is set. -/
def scanBase (n : Int) (scanned : List WiFiResult) : List WiFiResult :=
  (scanned.take n.toNat).map (fun w => { w with duplicate := false })

/-- The batch `copySSIDInfo` stores for a positive count: the copied
observations, RSSI-sorted, duplicate-flagged when `_removeDuplicateAPs`. -/
def finalBatch (removeDuplicateAPs : Bool) (n : Int) (scanned : List WiFiResult) : List WiFiResult :=
  if removeDuplicateAPs then markDups (selSort (scanBase n scanned))
  else selSort (scanBase n scanned)

def copySSIDInfo (cfg : Config) (n : Int) (scanned : List WiFiResult) (st : WMState) : WMState :=
  if 0 < n then
    let base := scanBase n scanned
    let found := st.foundOnScan || base.any (fun w => w.SSID == cfg.nvsNetwork)
    let st1 := { st with
      wifiSSIDs := finalBatch cfg.removeDuplicateAPs n scanned
      wifiSSIDCount := n
      shouldscan := false
      foundOnScan := found }
    if !found then { st1 with timeNow := st.now, apOn := false, border := 2000 } else st1
  else st

/-- Outcome of one iteration of the portal loop: `brk` when a `break`
statement ran, `cont` when the body fell through to `yield()`. -/
inductive IterResult where
  | brk (st : WMState)
  | cont (st : WMState)
deriving DecidableEq

/-- The state carried by an iteration outcome. -/
def iterState : IterResult → WMState
  | .brk st => st
  | .cont st => st

/-- Environment input for one loop iteration: whether the HTTP facade ran
`handleWifiSave` since the last iteration (its loop-relevant effect is
setting `connect`; it also resets the AP timer fields `time_now`, `ap_on`
and `border`, which only feed the AP-switch of `apSwitch`), the radio scan
answer, the radio status at the `WiFi.status()` check, the driver
behaviour for a `connectWifi` call, and how many ms the iteration takes. -/
structure TickInput where
  saveRequested : Bool
  scanCount : Int
  scanned : List WiFiResult
  statusConnected : Bool
  connectEnv : ConnectEnv
  dt : Nat

/-- The AP-switch at the top of each loop iteration (cpp lines 752-758):
switch the radio to AP-only mode once `millis() - time_now > border` (the
source's condition repeats the same comparison in both disjuncts). -/
def apSwitch (st : WMState) : WMState :=
  if ((st.border < (st.now - st.timeNow) % UL_MOD)
      || (!st.foundOnScan && st.border < (st.now - st.timeNow) % UL_MOD))
     && !st.apOn
  then { st with apOn := true } else st

/-- The scan phase of each loop iteration (cpp lines 768-788): when
`scannow == 0 || millis() - scannow >= 1000000`, disconnect any in-flight
station attempt, run `scanModal()` — whose `scan()` only reaches the
radio while `shouldscan`, `wifiSSIDscan` and the one-shot `try_scan` are
all still set — optionally kick off `WiFi.begin()` when
`_tryConnectDuringConfigPortal`, and stamp `scannow`. -/
def scanPhase (cfg : Config) (st : WMState) (inp : TickInput) : WMState :=
  if st.scannow == 0 || 1000000 ≤ (st.now - st.scannow) % UL_MOD then
    let st := { st with disconnects := st.disconnects + 1 }
    let st :=
      if st.shouldscan && st.wifiSSIDscan && st.tryScan then
        { copySSIDInfo cfg inp.scanCount inp.scanned st with tryScan := false }
      else st
    let st :=
      if cfg.tryConnectDuringConfigPortal then
        { st with connectedDuringConfigPortal := true }
      else st
    { st with scannow := st.now }
  else st

/-- The AP-switch and scan phases of one loop iteration combined. -/
def phaseApScan (cfg : Config) (st : WMState) (inp : TickInput) : WMState :=
  scanPhase cfg (apSwitch st) inp

/-- One iteration of the `while` body of `startConfigPortal` (cpp lines
750-848).  The HTTP facade may have set `connect` since the last
iteration; then the AP/scan phases run; then the `WiFi.status()` check
(save callback suppressed when the connection came from the in-portal
reconnect) and the `connect` branch, whose `_tryConnectDuringConfigPortal
and connectWifi(...)` condition short-circuits.  `millis()` is treated as
constant within an iteration and advances by `inp.dt` at `yield()`. -/
def loopBody (cfg : Config) (st0 : WMState) (inp : TickInput) : IterResult :=
  let st := { st0 with connect := st0.connect || inp.saveRequested }
  let st := phaseApScan cfg st inp
  let st := { st with wifiStatusConnected := inp.statusConnected }
  if st.wifiStatusConnected then
    let st :=
      if !st.connectedDuringConfigPortal && cfg.hasSaveCallback then
        { st with saveCallbackCalls := st.saveCallbackCalls + 1 }
      else st
    .brk st
  else if st.connect then
    let st := { st with connect := false }
    if cfg.tryConnectDuringConfigPortal then
      let st := { st with connectAttempts := st.connectAttempts + 1 }
      if connectWifi cfg.connectTimeout inp.connectEnv == WL_CONNECTED then
        let st := { st with wifiStatusConnected := true }
        let st :=
          if cfg.hasSaveCallback then
            { st with saveCallbackCalls := st.saveCallbackCalls + 1 }
          else st
        .brk st
      else
        let st := { st with timeNow := st.now }
        if cfg.shouldBreakAfterConfig then
          let st :=
            if cfg.hasSaveCallback then
              { st with saveCallbackCalls := st.saveCallbackCalls + 1 }
            else st
          .brk st
        else .cont { st with now := st.now + inp.dt }
    else
      if cfg.shouldBreakAfterConfig then
        let st :=
          if cfg.hasSaveCallback then
            { st with saveCallbackCalls := st.saveCallbackCalls + 1 }
          else st
        .brk st
      else .cont { st with now := st.now + inp.dt }
  else .cont { st with now := st.now + inp.dt }

/-- The `while` condition of `startConfigPortal` (cpp line 750):
`_configPortalTimeout == 0 || millis() - _configPortalStart <
_configPortalTimeout`, with the `unsigned long` subtraction wrapping. -/
def loopCond (cfg : Config) (st : WMState) : Bool :=
  cfg.configPortalTimeout == 0
  || (st.now - cfg.configPortalStart) % UL_MOD < cfg.configPortalTimeout

/-- Result of running the portal loop over a finite environment trace:
`exited connected st` when the loop ended (by its condition or a `break`)
and `startConfigPortal` returned `WiFi.status() == WL_CONNECTED`;
`outOfFuel st` when the trace was exhausted with the loop still running. -/
inductive PortalResult where
  | exited (connected : Bool) (st : WMState)
  | outOfFuel (st : WMState)
deriving DecidableEq

/-- The state carried by a portal-loop result. -/
def resultState : PortalResult → WMState
  | .exited _ st => st
  | .outOfFuel st => st

/-- The blocking loop of `startConfigPortal`, driven by a trace of
per-iteration environment inputs. -/
def runLoop (cfg : Config) (st : WMState) : List TickInput → PortalResult
  | [] =>
    if loopCond cfg st then .outOfFuel st else .exited st.wifiStatusConnected st
  | inp :: rest =>
    if loopCond cfg st then
      match loopBody cfg st inp with
      | .brk st1 => .exited st1.wifiStatusConnected st1
      | .cont st1 => runLoop cfg st1 rest
    else .exited st.wifiStatusConnected st

/-- The state right after the prologue of `startConfigPortal` (cpp lines
729-748: `connect = false; setupConfigPortal(); scannow = 0; time_now =
millis();`) with the constructor/header defaults of the other fields
(`border = 40000`, `ap_on = false`, `foundOnScan = false`, `shouldscan =
true`, `wifiSSIDscan = true`, `try_scan = true`). -/
def initWMState (startMillis : Nat) : WMState where
  now := startMillis
  timeNow := startMillis
  border := 40000
  apOn := false
  foundOnScan := false
  scannow := 0
  connect := false
  shouldscan := true
  wifiSSIDscan := true
  tryScan := true
  wifiSSIDs := []
  wifiSSIDCount := 0
  connectedDuringConfigPortal := false
  wifiStatusConnected := false
  saveCallbackCalls := 0
  connectAttempts := 0
  disconnects := 0

/-- `AsyncWiFiManager::setConfigPortalTimeout` (cpp lines 1055-1058):
`_configPortalTimeout = seconds * 1000` in `unsigned long`. -/
def setConfigPortalTimeout (seconds : Nat) : Nat :=
  (seconds * 1000) % UL_MOD

/-- Right-fold concatenation of rendered items, to relate
`networkListAsString` to the selected observations. -/
def concatAll : List String → String
  | [] => ""
  | s :: t => s ++ concatAll t

/-! ### Concrete instances used by witnesses and counterexamples -/

/-- A driver that stays disconnected (`WL_DISCONNECTED` = 6). -/
def envIdle : ConnectEnv where
  driverWaitResult := 6
  statusAt := fun _ => 6

/-- A driver whose connection attempt succeeds at once. -/
def envConnects : ConnectEnv where
  driverWaitResult := WL_CONNECTED
  statusAt := fun _ => WL_CONNECTED

/-- A portal configuration with the header defaults (no timeouts,
`_tryConnectDuringConfigPortal = true`, `_removeDuplicateAPs = true`). -/
def cfgDefault : Config where
  configPortalTimeout := 0
  configPortalStart := 0
  connectTimeout := 0
  tryConnectDuringConfigPortal := true
  shouldBreakAfterConfig := false
  removeDuplicateAPs := true
  hasSaveCallback := true
  nvsNetwork := "home"

/-- A configuration with a 5 ms portal timeout. -/
def cfgTimed : Config :=
  { cfgDefault with configPortalTimeout := 5 }

/-- A configuration with `_tryConnectDuringConfigPortal` disabled. -/
def cfgNoTry : Config :=
  { cfgDefault with tryConnectDuringConfigPortal := false, nvsNetwork := "zzz" }

/-- An iteration during which nothing happens in the environment. -/
def tickQuiet : TickInput where
  saveRequested := false
  scanCount := 0
  scanned := []
  statusConnected := false
  connectEnv := envIdle
  dt := 1

/-- An iteration during which the HTTP facade submitted credentials and
the subsequent connection attempt would succeed. -/
def tickSave : TickInput where
  saveRequested := true
  scanCount := 0
  scanned := []
  statusConnected := false
  connectEnv := envConnects
  dt := 1

/-- An iteration like `tickSave` but with a failing driver. -/
def tickSaveIdle : TickInput :=
  { tickSave with connectEnv := envIdle }

/-- A sample open network at -60 dBm. -/
def wAlpha : WiFiResult where
  duplicate := false
  SSID := "alpha"
  encryptionType := 0
  RSSI := -60
  BSSID := [1, 2, 3, 4, 5, 6]
  channel := 1
  isHidden := false

/-- A sample secured network at -55 dBm. -/
def wBeta : WiFiResult :=
  { wAlpha with SSID := "beta", encryptionType := 3, RSSI := -55 }

/-- A second observation of `alpha`, weaker. -/
def wAlphaWeak : WiFiResult :=
  { wAlpha with RSSI := -70 }

/-- An observation whose computed quality is exactly the default minimum
quality 8 (`2 * (-96 + 100) = 8`). -/
def wBoundary : WiFiResult :=
  { wAlpha with SSID := "boundary", RSSI := -96 }

/-- First scan answer of the C3 counterexample run: one network. -/
def tickScanAlpha : TickInput :=
  { tickQuiet with scanCount := 1, scanned := [wAlpha], dt := 2000000 }

/-- Second scan answer of the C3 counterexample run: a different network. -/
def tickScanBeta : TickInput :=
  { tickQuiet with scanCount := 1, scanned := [wBeta], dt := 1 }

/-- The C3 counterexample run: two iterations of the portal loop, each
with the scan interval elapsed, whose scans answer different networks. -/
def c3run : PortalResult :=
  runLoop cfgNoTry (initWMState 5) [tickScanAlpha, tickScanBeta]

/-! ## Theorems -/

/-- A non-positive scan count leaves `copySSIDInfo` a no-op. -/
theorem copySSIDInfo_nonpos (cfg : Config) (n : Int) (scanned : List WiFiResult)
    (st : WMState) (hn : n ≤ 0) :
    copySSIDInfo cfg n scanned st = st := by
  simp only [copySSIDInfo, if_neg (not_lt.mpr hn)]

/-- The display loop of `networkListAsString` selects exactly the
non-duplicate observations whose quality passes the
`_minimumQuality == 0 || _minimumQuality < quality` test, in order. -/
theorem networkListSelected_eq_filter (minQ : Nat) (l : List WiFiResult) :
    networkListSelected minQ l
      = l.filter (fun w => !w.duplicate && (minQ == 0 || decide (minQ < getRSSIasQuality w.RSSI))) := by
  induction l with
  | nil => rfl
  | cons w rest ih =>
    by_cases hd : w.duplicate
    · simp [networkListSelected, List.filter_cons, hd, ih]
    · by_cases hq : (minQ == 0 || decide (minQ < getRSSIasQuality w.RSSI)) = true
      · simp [networkListSelected, List.filter_cons, hd, hq, ih]
      · simp [networkListSelected, List.filter_cons, hd, hq, ih]

/-- The pager string is the concatenation of the rendered selected items. -/
theorem networkListAsString_eq_concat (minQ : Nat) (l : List WiFiResult) :
    networkListAsString minQ l = concatAll ((networkListSelected minQ l).map renderItem) := by
  induction l with
  | nil => rfl
  | cons w rest ih =>
    by_cases hd : w.duplicate
    · simp [networkListAsString, networkListSelected, hd, ih]
    · by_cases hq : (minQ == 0 || decide (minQ < getRSSIasQuality w.RSSI)) = true
      · simp [networkListAsString, networkListSelected, hd, hq, ih, concatAll]
      · simp [networkListAsString, networkListSelected, hd, hq, ih]

/-- C4 counterexample: a non-duplicate observation whose computed quality
is exactly 8 (RSSI -96) is omitted by the rendering although the claim
says every non-duplicate observation of quality 8 or more is included. -/
theorem render_quality_counterexample :
    wBoundary.duplicate = false
  ∧ getRSSIasQuality wBoundary.RSSI = 8
  ∧ networkListSelected 8 [wBoundary] = []
  ∧ networkListAsString 8 [wBoundary] = ("") := by
  decide

/-- C4 (amended): rendering the network listing with minimum quality 8
includes exactly the non-duplicate observations whose computed quality is
strictly greater than 8 (so quality exactly 8 is omitted together with
everything below), in the batch's order. -/
theorem render_quality_amended (l : List WiFiResult) :
    networkListSelected 8 l
      = l.filter (fun w => !w.duplicate && decide (8 < getRSSIasQuality w.RSSI))
  ∧ networkListAsString 8 l
      = concatAll ((l.filter
          (fun w => !w.duplicate && decide (8 < getRSSIasQuality w.RSSI))).map renderItem) := by
  have hpred : (fun w : WiFiResult => !w.duplicate && ((8:Nat) == 0 || decide (8 < getRSSIasQuality w.RSSI)))
      = (fun w : WiFiResult => !w.duplicate && decide (8 < getRSSIasQuality w.RSSI)) := by
    funext w
    rfl
  refine ⟨?_, ?_⟩
  · rw [networkListSelected_eq_filter, hpred]
  · rw [networkListAsString_eq_concat, networkListSelected_eq_filter, hpred]

/-- C5: the form-submission store step writes at most `length - 1` bytes
of the submitted value (Arduino `toCharArray` reserves one slot of the
given size for the terminator), so a parameter of declared length 5
receiving `abcdef` stores the 4 bytes `abcd` — while the same buffer
receives 5 bytes (`abcde`) of a default value through
`AsyncWiFiManagerParameter::init`. -/
theorem param_truncation_eval :
    handleWifiSaveStoredValue 5 ("abcdef") [] = ("abcd").toList
  ∧ (handleWifiSaveStoredValue 5 ("abcdef") []).length = 4
  ∧ initStoredValue 5 ("abcdef") = ("abcde").toList := by
  decide

/-- C6: `addParameter` performs no capacity check whatsoever: for every
current count it stores at slot `_paramsCount` and increments the count,
so the call with `_paramsCount = WIFI_MANAGER_MAX_PARAMS` (the 11th add)
writes one slot past the end of the 10-slot `_params` array instead of
failing with a capacity error. -/
theorem addParameter_overflow_eval :
    (∀ paramsCount : Nat, (addParameter paramsCount).newCount = paramsCount + 1)
  ∧ (addParameter WIFI_MANAGER_MAX_PARAMS).newCount = 11
  ∧ ¬ (addParameter WIFI_MANAGER_MAX_PARAMS).writeIndex < WIFI_MANAGER_MAX_PARAMS := by
  refine ⟨fun c => rfl, rfl, by decide⟩

/-- C7: for every scan count that is a failure or busy sentinel, negative,
or zero (all such counts satisfy `n ≤ 0`, the sentinels being -1 and -2),
`copySSIDInfo` leaves the manager state — in particular the stored
observation array `wifiSSIDs` and its count `wifiSSIDCount` — exactly as
it was before the call. -/
theorem scan_failure_frame (cfg : Config) (n : Int) (scanned : List WiFiResult)
    (st : WMState) (hn : n ≤ 0) :
    copySSIDInfo cfg n scanned st = st :=
  copySSIDInfo_nonpos cfg n scanned st hn

/-- Witness for C7: the `WIFI_SCAN_FAILED` sentinel leaves a concrete
state untouched. -/
theorem scan_failure_frame_witness :
    WIFI_SCAN_FAILED ≤ 0
  ∧ copySSIDInfo cfgDefault WIFI_SCAN_FAILED [] (initWMState 0) = initWMState 0 :=
  ⟨by decide, scan_failure_frame cfgDefault WIFI_SCAN_FAILED [] (initWMState 0) (by decide)⟩

/-- C10: `isIp` accepts the empty string (the character check is vacuous),
so a request whose Host header is empty is classified as an IP literal and
`captivePortal` does not redirect it. -/
theorem isIp_empty_host :
    isIp ("") = true ∧ captivePortalRedirects ("") = false := by
  decide

/-! ### Correctness of the RSSI exchange sort -/

theorem bubbleMax_snd_length (x : WiFiResult) (l : List WiFiResult) :
    ((bubbleMax x l).2).length = l.length := by
  induction l generalizing x with
  | nil => rfl
  | cons y t ih =>
    by_cases h : x.RSSI < y.RSSI
    · simp [bubbleMax, if_pos h, ih]
    · simp [bubbleMax, if_neg h, ih]

theorem bubbleMax_fst_rssi (x : WiFiResult) (l : List WiFiResult) :
    x.RSSI ≤ ((bubbleMax x l).1).RSSI := by
  induction l generalizing x with
  | nil => exact le_refl _
  | cons y t ih =>
    by_cases h : x.RSSI < y.RSSI
    · simp only [bubbleMax, if_pos h]
      exact le_trans h.le (ih y)
    · simp only [bubbleMax, if_neg h]
      exact ih x

theorem bubbleMax_snd_rssi (x : WiFiResult) (l : List WiFiResult) :
    ∀ z ∈ (bubbleMax x l).2, z.RSSI ≤ ((bubbleMax x l).1).RSSI := by
  induction l generalizing x with
  | nil =>
    intro z hz
    simp [bubbleMax] at hz
  | cons y t ih =>
    intro z hz
    by_cases h : x.RSSI < y.RSSI
    · simp only [bubbleMax, if_pos h] at hz ⊢
      rcases List.mem_cons.mp hz with rfl | hz2
      · exact le_trans h.le (bubbleMax_fst_rssi y t)
      · exact ih y z hz2
    · simp only [bubbleMax, if_neg h] at hz ⊢
      rcases List.mem_cons.mp hz with rfl | hz2
      · exact le_trans (not_lt.mp h) (bubbleMax_fst_rssi x t)
      · exact ih x z hz2

theorem bubbleMax_fst_mem (x : WiFiResult) (l : List WiFiResult) :
    (bubbleMax x l).1 = x ∨ (bubbleMax x l).1 ∈ l := by
  induction l generalizing x with
  | nil => exact Or.inl rfl
  | cons y t ih =>
    by_cases h : x.RSSI < y.RSSI
    · simp only [bubbleMax, if_pos h]
      rcases ih y with h1 | h1
      · refine Or.inr ?_
        rw [h1]
        exact List.mem_cons_self _ _
      · exact Or.inr (List.mem_cons_of_mem _ h1)
    · simp only [bubbleMax, if_neg h]
      rcases ih x with h1 | h1
      · exact Or.inl h1
      · exact Or.inr (List.mem_cons_of_mem _ h1)

theorem bubbleMax_snd_subset (x : WiFiResult) (l : List WiFiResult) :
    ∀ z ∈ (bubbleMax x l).2, z = x ∨ z ∈ l := by
  induction l generalizing x with
  | nil =>
    intro z hz
    simp [bubbleMax] at hz
  | cons y t ih =>
    intro z hz
    by_cases h : x.RSSI < y.RSSI
    · simp only [bubbleMax, if_pos h] at hz
      rcases List.mem_cons.mp hz with rfl | hz2
      · exact Or.inl rfl
      · rcases ih y z hz2 with rfl | h2
        · exact Or.inr (List.mem_cons_self _ _)
        · exact Or.inr (List.mem_cons_of_mem _ h2)
    · simp only [bubbleMax, if_neg h] at hz
      rcases List.mem_cons.mp hz with rfl | hz2
      · exact Or.inr (List.mem_cons_self _ _)
      · rcases ih x z hz2 with h2 | h2
        · exact Or.inl h2
        · exact Or.inr (List.mem_cons_of_mem _ h2)

theorem selSortFuel_subset :
    ∀ (fuel : Nat) (l : List WiFiResult), ∀ z ∈ selSortFuel fuel l, z ∈ l := by
  intro fuel
  induction fuel with
  | zero =>
    intro l z hz
    simpa [selSortFuel] using hz
  | succ f ih =>
    intro l z hz
    cases l with
    | nil => simp [selSortFuel] at hz
    | cons x t =>
      simp only [selSortFuel] at hz
      rcases List.mem_cons.mp hz with rfl | hz2
      · rcases bubbleMax_fst_mem x t with h | h
        · rw [h]
          exact List.mem_cons_self _ _
        · exact List.mem_cons_of_mem _ h
      · rcases bubbleMax_snd_subset x t z (ih _ z hz2) with rfl | h
        · exact List.mem_cons_self _ _
        · exact List.mem_cons_of_mem _ h

theorem selSortFuel_pairwise :
    ∀ (fuel : Nat) (l : List WiFiResult), l.length ≤ fuel →
      (selSortFuel fuel l).Pairwise (fun a b => b.RSSI ≤ a.RSSI) := by
  intro fuel
  induction fuel with
  | zero =>
    intro l hl
    have : l = [] := List.length_eq_zero.mp (Nat.le_zero.mp hl)
    subst this
    exact List.Pairwise.nil
  | succ f ih =>
    intro l hl
    cases l with
    | nil => exact List.Pairwise.nil
    | cons x t =>
      simp only [selSortFuel]
      refine List.Pairwise.cons ?_ (ih _ ?_)
      · intro z hz
        exact bubbleMax_snd_rssi x t z (selSortFuel_subset f _ z hz)
      · rw [bubbleMax_snd_length]
        exact Nat.le_of_succ_le_succ (by simpa using hl)

/-- The stored batch of a successful scan is sorted by non-increasing
RSSI before duplicate marking. -/
theorem selSort_pairwise (l : List WiFiResult) :
    (selSort l).Pairwise (fun a b => b.RSSI ≤ a.RSSI) :=
  selSortFuel_pairwise l.length l le_rfl

theorem mark_map_rssi (s : String) (l : List WiFiResult) :
    (mark s l).map (fun w => w.RSSI) = l.map (fun w => w.RSSI) := by
  unfold mark
  rw [List.map_map]
  have hfun : ((fun w : WiFiResult => w.RSSI)
        ∘ (fun y : WiFiResult => if y.SSID == s then { y with duplicate := true } else y))
      = fun y : WiFiResult => y.RSSI := by
    funext y
    by_cases h : y.SSID = s
    · simp [h]
    · simp [h]
  rw [hfun]

theorem markDupsFuel_map_rssi :
    ∀ (fuel : Nat) (l : List WiFiResult),
      (markDupsFuel fuel l).map (fun w => w.RSSI) = l.map (fun w => w.RSSI) := by
  intro fuel
  induction fuel with
  | zero => intro l; rfl
  | succ f ih =>
    intro l
    cases l with
    | nil => rfl
    | cons x t =>
      by_cases h : x.duplicate
      · simp [markDupsFuel, h, ih]
      · simp [markDupsFuel, h, ih, mark_map_rssi]

theorem markDups_map_rssi (l : List WiFiResult) :
    (markDups l).map (fun w => w.RSSI) = l.map (fun w => w.RSSI) :=
  markDupsFuel_map_rssi l.length l

/-- Duplicate marking permutes nothing: a batch sorted by non-increasing
RSSI stays so. -/
theorem markDups_pairwise_rssi (l : List WiFiResult)
    (h : l.Pairwise (fun a b => b.RSSI ≤ a.RSSI)) :
    (markDups l).Pairwise (fun a b => b.RSSI ≤ a.RSSI) := by
  have h1 : (l.map (fun w => w.RSSI)).Pairwise (fun p q => q ≤ p) :=
    List.pairwise_map.mpr h
  have h2 : ((markDups l).map (fun w => w.RSSI)).Pairwise (fun p q => q ≤ p) := by
    rw [markDups_map_rssi]
    exact h1
  exact List.pairwise_map.mp h2

/-- The batch stored by `copySSIDInfo` for a positive count. -/
theorem copySSIDInfo_wifiSSIDs (cfg : Config) (n : Int) (scanned : List WiFiResult)
    (st : WMState) (hn : 0 < n) :
    (copySSIDInfo cfg n scanned st).wifiSSIDs
      = finalBatch cfg.removeDuplicateAPs n scanned := by
  simp only [copySSIDInfo, if_pos hn]
  split <;> rfl

theorem finalBatch_pairwise_rssi (rem : Bool) (n : Int) (scanned : List WiFiResult) :
    (finalBatch rem n scanned).Pairwise (fun a b => b.RSSI ≤ a.RSSI) := by
  unfold finalBatch
  by_cases h : rem
  · simp only [h, if_pos]
    exact markDups_pairwise_rssi _ (selSort_pairwise _)
  · simp only [h]
    simpa using selSort_pairwise (scanBase n scanned)

/-- C8: after every scan that stores at least one observation
(`n > 0`), the stored batch is ordered by non-increasing signal strength:
for all index pairs `i < j`, the RSSI at `j` is at most the RSSI at `i`. -/
theorem batch_sorted (cfg : Config) (n : Int) (scanned : List WiFiResult)
    (st : WMState) (hn : 0 < n) :
    ∀ i j : Fin ((copySSIDInfo cfg n scanned st).wifiSSIDs).length, i < j →
      (((copySSIDInfo cfg n scanned st).wifiSSIDs).get j).RSSI
        ≤ (((copySSIDInfo cfg n scanned st).wifiSSIDs).get i).RSSI := by
  have hb := copySSIDInfo_wifiSSIDs cfg n scanned st hn
  have hpw : ((copySSIDInfo cfg n scanned st).wifiSSIDs).Pairwise
      (fun a b => b.RSSI ≤ a.RSSI) := by
    rw [hb]
    exact finalBatch_pairwise_rssi _ n scanned
  exact fun i j hij => List.pairwise_iff_get.mp hpw i j hij

/-! ### Correctness of the duplicate marking -/

theorem dupFlagSpec_mark (seen : List String) (s : String) (t : List WiFiResult) :
    dupFlagSpec seen (mark s t) = dupFlagSpec seen t := by
  induction t generalizing seen with
  | nil => rfl
  | cons y u ih =>
    by_cases h : (y.SSID == s) = true
    · simp only [mark, List.map_cons, dupFlagSpec, if_pos h]
      rw [List.cons.injEq]
      exact ⟨rfl, ih (y.SSID :: seen)⟩
    · simp only [mark, List.map_cons, dupFlagSpec, if_neg h]
      rw [List.cons.injEq]
      exact ⟨rfl, ih (y.SSID :: seen)⟩

theorem markDupsFuel_eq_dupFlagSpec :
    ∀ (fuel : Nat) (l : List WiFiResult) (seen : List String), l.length ≤ fuel →
      (∀ y ∈ l, y.duplicate = decide (y.SSID ∈ seen)) →
      markDupsFuel fuel l = dupFlagSpec seen l := by
  intro fuel
  induction fuel with
  | zero =>
    intro l seen hl _
    have hnil : l = [] := List.length_eq_zero.mp (Nat.le_zero.mp hl)
    subst hnil
    rfl
  | succ f ih =>
    intro l seen hl hflag
    cases l with
    | nil => rfl
    | cons x t =>
      have hx := hflag x (List.mem_cons_self _ _)
      have hlen : t.length ≤ f := Nat.le_of_succ_le_succ (by simpa using hl)
      by_cases hd : x.duplicate
      · have hmem : x.SSID ∈ seen := by
          have h1 : decide (x.SSID ∈ seen) = true := hx ▸ hd
          exact of_decide_eq_true h1
        have hflags2 : ∀ y ∈ t, y.duplicate = decide (y.SSID ∈ x.SSID :: seen) := by
          intro y hy
          rw [hflag y (List.mem_cons_of_mem _ hy), decide_eq_decide]
          constructor
          · intro h2
            exact List.mem_cons_of_mem _ h2
          · intro h2
            rcases List.mem_cons.mp h2 with he | h3
            · exact he ▸ hmem
            · exact h3
        simp only [markDupsFuel, if_pos hd, dupFlagSpec]
        rw [List.cons.injEq]
        refine ⟨?_, ih t (x.SSID :: seen) hlen hflags2⟩
        rw [← hx]
      · have hflags2 : ∀ y2 ∈ mark x.SSID t, y2.duplicate = decide (y2.SSID ∈ x.SSID :: seen) := by
          intro y2 hy2
          rcases List.mem_map.mp hy2 with ⟨y, hy, rfl⟩
          by_cases he : (y.SSID == x.SSID) = true
          · rw [if_pos he]
            have he2 : y.SSID = x.SSID := beq_iff_eq.mp he
            simp [List.mem_cons, he2]
          · rw [if_neg he]
            have he2 : ¬ y.SSID = x.SSID := by
              intro h2
              exact he (beq_iff_eq.mpr h2)
            rw [hflag y (List.mem_cons_of_mem _ hy), decide_eq_decide]
            constructor
            · intro h2
              exact List.mem_cons_of_mem _ h2
            · intro h2
              rcases List.mem_cons.mp h2 with he3 | h3
              · exact absurd he3 he2
              · exact h3
        have hlen2 : (mark x.SSID t).length ≤ f := by
          simpa [mark] using hlen
        simp only [markDupsFuel, if_neg hd, dupFlagSpec]
        rw [List.cons.injEq]
        refine ⟨?_, ?_⟩
        · rw [← hx]
        · rw [ih (mark x.SSID t) (x.SSID :: seen) hlen2 hflags2]
          exact dupFlagSpec_mark (x.SSID :: seen) x.SSID t

/-- On a batch whose flags are all clear (as `copySSIDInfo` builds it),
the dedup pass computes exactly the already-seen-SSID flags. -/
theorem markDups_eq_dupFlagSpec (l : List WiFiResult)
    (h : ∀ y ∈ l, y.duplicate = false) :
    markDups l = dupFlagSpec [] l := by
  refine markDupsFuel_eq_dupFlagSpec l.length l [] le_rfl ?_
  intro y hy
  simp [h y hy]

theorem dupFlagSpec_length (seen : List String) (l : List WiFiResult) :
    (dupFlagSpec seen l).length = l.length := by
  induction l generalizing seen with
  | nil => rfl
  | cons x t ih => simp [dupFlagSpec, ih]

theorem dupFlagSpec_get_ssid (seen : List String) (l : List WiFiResult) :
    ∀ (i : Nat) (hi : i < l.length) (hi2 : i < (dupFlagSpec seen l).length),
      ((dupFlagSpec seen l).get ⟨i, hi2⟩).SSID = (l.get ⟨i, hi⟩).SSID := by
  induction l generalizing seen with
  | nil =>
    intro i hi _
    exact absurd hi (Nat.not_lt_zero i)
  | cons x t ih =>
    intro i hi hi2
    cases i with
    | zero => rfl
    | succ i =>
      exact ih (x.SSID :: seen) i (Nat.lt_of_succ_lt_succ hi)
        (Nat.lt_of_succ_lt_succ (by simpa [dupFlagSpec_length] using hi2))

/-- The flag `dupFlagSpec` computes at position `i`: the SSID was seen
before, either in `seen` or among the first `i` SSIDs of the list. -/
theorem dupFlagSpec_get_dup (seen : List String) (l : List WiFiResult) :
    ∀ (i : Nat) (hi : i < l.length) (hi2 : i < (dupFlagSpec seen l).length),
      ((dupFlagSpec seen l).get ⟨i, hi2⟩).duplicate
        = decide ((l.get ⟨i, hi⟩).SSID ∈ seen ++ ((l.map (fun w => w.SSID)).take i)) := by
  induction l generalizing seen with
  | nil =>
    intro i hi _
    exact absurd hi (Nat.not_lt_zero i)
  | cons x t ih =>
    intro i hi hi2
    cases i with
    | zero => simp [dupFlagSpec]
    | succ i =>
      have hstep := ih (x.SSID :: seen) i (Nat.lt_of_succ_lt_succ hi)
        (Nat.lt_of_succ_lt_succ (by simpa [dupFlagSpec_length] using hi2))
      have hget : ((dupFlagSpec seen (x :: t)).get ⟨i + 1, hi2⟩)
          = ((dupFlagSpec (x.SSID :: seen) t).get
              ⟨i, Nat.lt_of_succ_lt_succ (by simpa [dupFlagSpec_length] using hi2)⟩) := by
        simp only [dupFlagSpec, List.get_cons_succ]
      rw [hget, hstep, decide_eq_decide]
      have hget2 : ((x :: t).get ⟨i + 1, hi⟩) = (t.get ⟨i, Nat.lt_of_succ_lt_succ hi⟩) := by
        simp only [List.get_cons_succ]
      rw [hget2]
      simp only [List.map_cons, List.take_succ_cons, List.mem_append, List.mem_cons]
      tauto

/-- A later entry with an already-seen SSID is flagged. -/
theorem dupFlagSpec_later_dup (l : List WiFiResult) :
    ∀ (i j : Nat) (hi : i < l.length) (hj : j < l.length) (_hij : i < j)
      (hi2 : i < (dupFlagSpec [] l).length) (hj2 : j < (dupFlagSpec [] l).length),
      ((dupFlagSpec [] l).get ⟨i, hi2⟩).SSID = ((dupFlagSpec [] l).get ⟨j, hj2⟩).SSID →
      ((dupFlagSpec [] l).get ⟨j, hj2⟩).duplicate = true := by
  intro i j hi hj hij hi2 hj2 hss
  rw [dupFlagSpec_get_dup [] l j hj hj2, decide_eq_true_eq]
  have hssl : (l.get ⟨i, hi⟩).SSID = (l.get ⟨j, hj⟩).SSID := by
    rw [← dupFlagSpec_get_ssid [] l i hi hi2, ← dupFlagSpec_get_ssid [] l j hj hj2]
    exact hss
  simp only [List.nil_append]
  rw [← hssl]
  have hmaplen : i < (l.map (fun w => w.SSID)).length := by simpa using hi
  have htakelen : i < ((l.map (fun w => w.SSID)).take j).length := by
    rw [List.length_take]
    exact lt_min hij hmaplen
  have hgt : ((l.map (fun w => w.SSID)).take j).get ⟨i, htakelen⟩ = (l.get ⟨i, hi⟩).SSID := by
    simp [List.get_eq_getElem, List.getElem_take, List.getElem_map]
  rw [← hgt]
  exact List.get_mem _ _ _

/-- The first entry of each SSID keeps a clear flag. -/
theorem dupFlagSpec_first_not_dup (l : List WiFiResult) :
    ∀ (i : Nat) (hi : i < l.length) (hi2 : i < (dupFlagSpec [] l).length),
      (∀ (k : Nat) (hk : k < l.length), k < i →
          (l.get ⟨k, hk⟩).SSID ≠ (l.get ⟨i, hi⟩).SSID) →
      ((dupFlagSpec [] l).get ⟨i, hi2⟩).duplicate = false := by
  intro i hi hi2 hne
  rw [dupFlagSpec_get_dup [] l i hi hi2]
  simp only [List.nil_append]
  rw [decide_eq_false_iff_not]
  intro hmem
  rcases List.mem_iff_get.mp hmem with ⟨⟨k, hk⟩, hgk⟩
  have hk2 := hk
  rw [List.length_take] at hk2
  have hki : k < i := lt_of_lt_of_le hk2 (min_le_left _ _)
  have hkl : k < l.length := by
    have h3 : k < (l.map (fun w => w.SSID)).length := lt_of_lt_of_le hk2 (min_le_right _ _)
    simpa using h3
  have hkeq : (l.get ⟨k, hkl⟩).SSID = (l.get ⟨i, hi⟩).SSID := by
    rw [← hgk]
    simp [List.get_eq_getElem, List.getElem_take, List.getElem_map]
  exact hne k hkl hki hkeq

/-- C9: with duplicate removal enabled, after every scan that stores
observations (`n > 0`): any later stored observation whose SSID equals an
earlier one's is flagged duplicate, the first observation of each SSID is
not flagged, and the rendered listing contains each SSID at most once. -/
theorem dedup_flags (cfg : Config) (n : Int) (scanned : List WiFiResult) (st : WMState)
    (batch : List WiFiResult)
    (hdup : cfg.removeDuplicateAPs = true) (hn : 0 < n)
    (hbatch : batch = (copySSIDInfo cfg n scanned st).wifiSSIDs) :
    (∀ i j : Fin batch.length, i < j →
        (batch.get i).SSID = (batch.get j).SSID → (batch.get j).duplicate = true)
  ∧ (∀ i : Fin batch.length,
        (∀ j : Fin batch.length, (j : Nat) < (i : Nat) → (batch.get j).SSID ≠ (batch.get i).SSID) →
        (batch.get i).duplicate = false)
  ∧ (∀ minimumQuality : Nat,
        ((networkListSelected minimumQuality batch).map (fun w => w.SSID)).Nodup) := by
  have hflags : ∀ y ∈ selSort (scanBase n scanned), y.duplicate = false := by
    intro y hy
    rcases List.mem_map.mp (selSortFuel_subset _ _ y hy) with ⟨w, _, rfl⟩
    rfl
  have hb2 : batch = dupFlagSpec [] (selSort (scanBase n scanned)) := by
    rw [hbatch, copySSIDInfo_wifiSSIDs cfg n scanned st hn]
    unfold finalBatch
    rw [if_pos hdup]
    exact markDups_eq_dupFlagSpec _ hflags
  subst hb2
  have hlater : ∀ i j : Fin (dupFlagSpec [] (selSort (scanBase n scanned))).length, i < j →
      ((dupFlagSpec [] (selSort (scanBase n scanned))).get i).SSID
        = ((dupFlagSpec [] (selSort (scanBase n scanned))).get j).SSID →
      ((dupFlagSpec [] (selSort (scanBase n scanned))).get j).duplicate = true := by
    intro i j
    obtain ⟨iv, hi2⟩ := i
    obtain ⟨jv, hj2⟩ := j
    intro hij hss
    have hi : iv < (selSort (scanBase n scanned)).length :=
      lt_of_lt_of_le hi2 (le_of_eq (dupFlagSpec_length _ _))
    have hj : jv < (selSort (scanBase n scanned)).length :=
      lt_of_lt_of_le hj2 (le_of_eq (dupFlagSpec_length _ _))
    exact dupFlagSpec_later_dup _ iv jv hi hj hij hi2 hj2 hss
  refine ⟨hlater, ?_, ?_⟩
  · intro i
    obtain ⟨iv, hi2⟩ := i
    intro hne
    have hi : iv < (selSort (scanBase n scanned)).length :=
      lt_of_lt_of_le hi2 (le_of_eq (dupFlagSpec_length _ _))
    refine dupFlagSpec_first_not_dup _ iv hi hi2 ?_
    intro k hkl hki
    have hk2 : k < (dupFlagSpec [] (selSort (scanBase n scanned))).length :=
      lt_of_lt_of_le hkl (le_of_eq (dupFlagSpec_length _ _).symm)
    have h1 := hne ⟨k, hk2⟩ hki
    intro hcontra
    apply h1
    rw [dupFlagSpec_get_ssid [] _ k hkl hk2, dupFlagSpec_get_ssid [] _ iv hi hi2]
    exact hcontra
  · intro minQ
    have hpw : (dupFlagSpec [] (selSort (scanBase n scanned))).Pairwise
        (fun a b => a.duplicate = false → b.duplicate = false → a.SSID ≠ b.SSID) := by
      rw [List.pairwise_iff_get]
      intro i j hij hda hdb hss
      have hd := hlater i j hij hss
      rw [hd] at hdb
      exact absurd hdb (by decide)
    rw [networkListSelected_eq_filter]
    have hsub := List.filter_sublist
      (p := fun w => !w.duplicate && (minQ == 0 || decide (minQ < getRSSIasQuality w.RSSI)))
      (dupFlagSpec [] (selSort (scanBase n scanned)))
    have hpw2 := List.Pairwise.sublist hsub hpw
    have hpw3 : (List.filter
        (fun w => !w.duplicate && (minQ == 0 || decide (minQ < getRSSIasQuality w.RSSI)))
        (dupFlagSpec [] (selSort (scanBase n scanned)))).Pairwise
        (fun a b => a.SSID ≠ b.SSID) := by
      refine List.Pairwise.imp_of_mem ?_ hpw2
      intro a b ha hb hr
      have hda : a.duplicate = false := by
        have := (List.mem_filter.mp ha).2
        have h1 : (!a.duplicate) = true := (Bool.and_eq_true _ _ |>.mp this).1
        simpa using h1
      have hdb : b.duplicate = false := by
        have := (List.mem_filter.mp hb).2
        have h1 : (!b.duplicate) = true := (Bool.and_eq_true _ _ |>.mp this).1
        simpa using h1
      exact hr hda hdb
    exact List.pairwise_map.mpr hpw3

/-- Witness for C9: a scan answering the same SSID twice stores a batch
whose second `alpha` entry is flagged, and renders `alpha` once. -/
theorem dedup_flags_witness :
    (cfgDefault.removeDuplicateAPs = true ∧ (0:Int) < 2)
  ∧ ((∀ i j : Fin ((copySSIDInfo cfgDefault 2 [wAlpha, wAlphaWeak] (initWMState 0)).wifiSSIDs).length,
        i < j →
        (((copySSIDInfo cfgDefault 2 [wAlpha, wAlphaWeak] (initWMState 0)).wifiSSIDs).get i).SSID
          = (((copySSIDInfo cfgDefault 2 [wAlpha, wAlphaWeak] (initWMState 0)).wifiSSIDs).get j).SSID →
        (((copySSIDInfo cfgDefault 2 [wAlpha, wAlphaWeak] (initWMState 0)).wifiSSIDs).get j).duplicate = true)
    ∧ (∀ i : Fin ((copySSIDInfo cfgDefault 2 [wAlpha, wAlphaWeak] (initWMState 0)).wifiSSIDs).length,
        (∀ j : Fin ((copySSIDInfo cfgDefault 2 [wAlpha, wAlphaWeak] (initWMState 0)).wifiSSIDs).length,
          (j : Nat) < (i : Nat) →
          (((copySSIDInfo cfgDefault 2 [wAlpha, wAlphaWeak] (initWMState 0)).wifiSSIDs).get j).SSID
            ≠ (((copySSIDInfo cfgDefault 2 [wAlpha, wAlphaWeak] (initWMState 0)).wifiSSIDs).get i).SSID) →
        (((copySSIDInfo cfgDefault 2 [wAlpha, wAlphaWeak] (initWMState 0)).wifiSSIDs).get i).duplicate = false)
    ∧ (∀ minimumQuality : Nat,
        ((networkListSelected minimumQuality
            ((copySSIDInfo cfgDefault 2 [wAlpha, wAlphaWeak] (initWMState 0)).wifiSSIDs)).map
          (fun w => w.SSID)).Nodup)) :=
  ⟨⟨rfl, by decide⟩,
   dedup_flags cfgDefault 2 [wAlpha, wAlphaWeak] (initWMState 0)
     ((copySSIDInfo cfgDefault 2 [wAlpha, wAlphaWeak] (initWMState 0)).wifiSSIDs)
     rfl (by decide) rfl⟩

/-- Witness for C8: a concrete two-network scan stores a sorted batch. -/
theorem batch_sorted_witness :
    (0:Int) < 2
  ∧ (∀ i j : Fin ((copySSIDInfo cfgDefault 2 [wAlpha, wBeta] (initWMState 0)).wifiSSIDs).length,
      i < j →
      (((copySSIDInfo cfgDefault 2 [wAlpha, wBeta] (initWMState 0)).wifiSSIDs).get j).RSSI
        ≤ (((copySSIDInfo cfgDefault 2 [wAlpha, wBeta] (initWMState 0)).wifiSSIDs).get i).RSSI) :=
  ⟨by decide, batch_sorted cfgDefault 2 [wAlpha, wBeta] (initWMState 0) (by decide)⟩

/-! ### Frame lemmas for the loop phases -/

@[simp] theorem copySSIDInfo_connect (cfg : Config) (n : Int) (s : List WiFiResult) (st : WMState) :
    (copySSIDInfo cfg n s st).connect = st.connect := by
  simp only [copySSIDInfo]
  split
  · split <;> rfl
  · rfl

@[simp] theorem copySSIDInfo_connectAttempts (cfg : Config) (n : Int) (s : List WiFiResult) (st : WMState) :
    (copySSIDInfo cfg n s st).connectAttempts = st.connectAttempts := by
  simp only [copySSIDInfo]
  split
  · split <;> rfl
  · rfl

@[simp] theorem copySSIDInfo_saveCallbackCalls (cfg : Config) (n : Int) (s : List WiFiResult) (st : WMState) :
    (copySSIDInfo cfg n s st).saveCallbackCalls = st.saveCallbackCalls := by
  simp only [copySSIDInfo]
  split
  · split <;> rfl
  · rfl

@[simp] theorem copySSIDInfo_now (cfg : Config) (n : Int) (s : List WiFiResult) (st : WMState) :
    (copySSIDInfo cfg n s st).now = st.now := by
  simp only [copySSIDInfo]
  split
  · split <;> rfl
  · rfl

@[simp] theorem copySSIDInfo_scannow (cfg : Config) (n : Int) (s : List WiFiResult) (st : WMState) :
    (copySSIDInfo cfg n s st).scannow = st.scannow := by
  simp only [copySSIDInfo]
  split
  · split <;> rfl
  · rfl

@[simp] theorem copySSIDInfo_disconnects (cfg : Config) (n : Int) (s : List WiFiResult) (st : WMState) :
    (copySSIDInfo cfg n s st).disconnects = st.disconnects := by
  simp only [copySSIDInfo]
  split
  · split <;> rfl
  · rfl

@[simp] theorem copySSIDInfo_tryScan (cfg : Config) (n : Int) (s : List WiFiResult) (st : WMState) :
    (copySSIDInfo cfg n s st).tryScan = st.tryScan := by
  simp only [copySSIDInfo]
  split
  · split <;> rfl
  · rfl

@[simp] theorem copySSIDInfo_wifiStatusConnected (cfg : Config) (n : Int) (s : List WiFiResult) (st : WMState) :
    (copySSIDInfo cfg n s st).wifiStatusConnected = st.wifiStatusConnected := by
  simp only [copySSIDInfo]
  split
  · split <;> rfl
  · rfl

@[simp] theorem apSwitch_connect (st : WMState) : (apSwitch st).connect = st.connect := by
  simp only [apSwitch]
  split <;> rfl

@[simp] theorem apSwitch_connectAttempts (st : WMState) :
    (apSwitch st).connectAttempts = st.connectAttempts := by
  simp only [apSwitch]
  split <;> rfl

@[simp] theorem apSwitch_saveCallbackCalls (st : WMState) :
    (apSwitch st).saveCallbackCalls = st.saveCallbackCalls := by
  simp only [apSwitch]
  split <;> rfl

@[simp] theorem apSwitch_now (st : WMState) : (apSwitch st).now = st.now := by
  simp only [apSwitch]
  split <;> rfl

@[simp] theorem apSwitch_scannow (st : WMState) : (apSwitch st).scannow = st.scannow := by
  simp only [apSwitch]
  split <;> rfl

@[simp] theorem apSwitch_disconnects (st : WMState) : (apSwitch st).disconnects = st.disconnects := by
  simp only [apSwitch]
  split <;> rfl

@[simp] theorem apSwitch_shouldscan (st : WMState) : (apSwitch st).shouldscan = st.shouldscan := by
  simp only [apSwitch]
  split <;> rfl

@[simp] theorem apSwitch_wifiSSIDscan (st : WMState) : (apSwitch st).wifiSSIDscan = st.wifiSSIDscan := by
  simp only [apSwitch]
  split <;> rfl

@[simp] theorem apSwitch_tryScan (st : WMState) : (apSwitch st).tryScan = st.tryScan := by
  simp only [apSwitch]
  split <;> rfl

@[simp] theorem apSwitch_wifiSSIDs (st : WMState) : (apSwitch st).wifiSSIDs = st.wifiSSIDs := by
  simp only [apSwitch]
  split <;> rfl

@[simp] theorem apSwitch_wifiStatusConnected (st : WMState) :
    (apSwitch st).wifiStatusConnected = st.wifiStatusConnected := by
  simp only [apSwitch]
  split <;> rfl

theorem scanPhase_connect (cfg : Config) (st : WMState) (inp : TickInput) :
    (scanPhase cfg st inp).connect = st.connect := by
  simp only [scanPhase]
  split
  · split <;> split <;> simp
  · rfl

theorem scanPhase_connectAttempts (cfg : Config) (st : WMState) (inp : TickInput) :
    (scanPhase cfg st inp).connectAttempts = st.connectAttempts := by
  simp only [scanPhase]
  split
  · split <;> split <;> simp
  · rfl

theorem scanPhase_saveCallbackCalls (cfg : Config) (st : WMState) (inp : TickInput) :
    (scanPhase cfg st inp).saveCallbackCalls = st.saveCallbackCalls := by
  simp only [scanPhase]
  split
  · split <;> split <;> simp
  · rfl

theorem scanPhase_now (cfg : Config) (st : WMState) (inp : TickInput) :
    (scanPhase cfg st inp).now = st.now := by
  simp only [scanPhase]
  split
  · split <;> split <;> simp
  · rfl

/-! ### The portal loop -/

@[simp] theorem iterState_brk (st : WMState) : iterState (.brk st) = st := rfl

@[simp] theorem iterState_cont (st : WMState) : iterState (.cont st) = st := rfl

@[simp] theorem resultState_exited (c : Bool) (st : WMState) :
    resultState (.exited c st) = st := rfl

@[simp] theorem resultState_outOfFuel (st : WMState) :
    resultState (.outOfFuel st) = st := rfl

/-- The loop body falls through to `yield()` (no break) when the radio
does not report connected, the pending connection attempt does not
succeed, and break-after-config is off. -/
theorem loopBody_quiet (cfg : Config) (st : WMState) (inp : TickInput)
    (hs : inp.statusConnected = false)
    (hc : connectWifi cfg.connectTimeout inp.connectEnv ≠ WL_CONNECTED)
    (hb : cfg.shouldBreakAfterConfig = false) :
    ∃ st1, loopBody cfg st inp = .cont st1 := by
  have hc2 : (connectWifi cfg.connectTimeout inp.connectEnv == WL_CONNECTED) = false := by
    simpa using hc
  simp only [loopBody, hs, hb, hc2, Bool.false_eq_true, if_false]
  split
  · split
    · exact ⟨_, rfl⟩
    · exact ⟨_, rfl⟩
  · exact ⟨_, rfl⟩

/-- Stepping the loop once from a state where its condition holds. -/
theorem runLoop_cons_cont (cfg : Config) (st : WMState) (inp : TickInput)
    (rest : List TickInput) (st1 : WMState)
    (hcond : loopCond cfg st = true) (hbody : loopBody cfg st inp = .cont st1) :
    runLoop cfg st (inp :: rest) = runLoop cfg st1 rest := by
  simp only [runLoop, hcond, hbody, if_true]

/-- C1: with portal timeout 0 the blocking loop of `startConfigPortal`
never exits — in particular never by timeout — however long the trace,
provided no connection succeeds and no break-after-config exit can occur;
with a timeout T > 0, at any condition check where at least T ms have
elapsed since portal start (wrap-free) and the station is not connected,
the loop exits immediately, returning not-connected. -/
theorem portal_timeout_behavior :
    (∀ (cfg : Config) (st : WMState) (inputs : List TickInput),
       cfg.configPortalTimeout = 0 →
       cfg.shouldBreakAfterConfig = false →
       (∀ inp ∈ inputs, inp.statusConnected = false ∧
          connectWifi cfg.connectTimeout inp.connectEnv ≠ WL_CONNECTED) →
       ∃ stEnd, runLoop cfg st inputs = .outOfFuel stEnd)
  ∧ (∀ (cfg : Config) (st : WMState) (inputs : List TickInput),
       0 < cfg.configPortalTimeout →
       cfg.configPortalTimeout ≤ st.now - cfg.configPortalStart →
       st.now - cfg.configPortalStart < UL_MOD →
       st.wifiStatusConnected = false →
       runLoop cfg st inputs = .exited false st) := by
  constructor
  · intro cfg st inputs h0 hb
    induction inputs generalizing st with
    | nil =>
      intro _
      refine ⟨st, ?_⟩
      simp [runLoop, loopCond, h0]
    | cons inp rest ih =>
      intro hq
      obtain ⟨hs, hc⟩ := hq inp (List.mem_cons_self _ _)
      obtain ⟨st1, hst1⟩ := loopBody_quiet cfg st inp hs hc hb
      have hcond : loopCond cfg st = true := by
        simp [loopCond, h0]
      rw [runLoop_cons_cont cfg st inp rest st1 hcond hst1]
      exact ih st1 (fun i hi => hq i (List.mem_cons_of_mem _ hi))
  · intro cfg st inputs hpos hele hlt hstatus
    have hcond : loopCond cfg st = false := by
      simp only [loopCond]
      rw [Nat.mod_eq_of_lt hlt]
      simp [Nat.pos_iff_ne_zero.mp hpos, Nat.not_lt.mpr hele]
    cases inputs with
    | nil => simp [runLoop, hcond, hstatus]
    | cons inp rest => simp [runLoop, hcond, hstatus]

/-- If the save-requested flag is up when the loop body runs (radio not
connected, try-connect-during-portal enabled), the flag is cleared and
exactly one `connectWifi` call happens, whatever the attempt returns. -/
theorem loopBody_connect_clears (cfg : Config) (st : WMState) (inp : TickInput)
    (hTry : cfg.tryConnectDuringConfigPortal = true)
    (hs : inp.statusConnected = false)
    (hc : (st.connect || inp.saveRequested) = true) :
    (iterState (loopBody cfg st inp)).connect = false
    ∧ (iterState (loopBody cfg st inp)).connectAttempts = st.connectAttempts + 1 := by
  by_cases hsv : cfg.hasSaveCallback = true <;>
  by_cases hbrk : cfg.shouldBreakAfterConfig = true <;>
  by_cases hOk : (connectWifi cfg.connectTimeout inp.connectEnv == WL_CONNECTED) = true <;>
  simp [loopBody, phaseApScan, iterState, hs, hTry, hc, hsv, hbrk, hOk,
    scanPhase_connect, scanPhase_connectAttempts]

/-- A successful pending connection attempt breaks out of the loop with
the station connected and the save callback run (when registered). -/
theorem loopBody_connect_success (cfg : Config) (st : WMState) (inp : TickInput)
    (hTry : cfg.tryConnectDuringConfigPortal = true)
    (hs : inp.statusConnected = false)
    (hc : (st.connect || inp.saveRequested) = true)
    (hOk : (connectWifi cfg.connectTimeout inp.connectEnv == WL_CONNECTED) = true) :
    ∃ stEnd, loopBody cfg st inp = .brk stEnd
      ∧ stEnd.connect = false
      ∧ stEnd.connectAttempts = st.connectAttempts + 1
      ∧ stEnd.wifiStatusConnected = true
      ∧ (cfg.hasSaveCallback = true → stEnd.saveCallbackCalls = st.saveCallbackCalls + 1) := by
  by_cases hsv : cfg.hasSaveCallback = true
  · refine ⟨iterState (loopBody cfg st inp), ?_, ?_, ?_, ?_, ?_⟩
    · simp [loopBody, phaseApScan, iterState, hs, hTry, hc, hOk, hsv, scanPhase_connect]
    · simp [loopBody, phaseApScan, iterState, hs, hTry, hc, hOk, hsv, scanPhase_connect]
    · simp [loopBody, phaseApScan, iterState, hs, hTry, hc, hOk, hsv, scanPhase_connect,
        scanPhase_connectAttempts]
    · simp [loopBody, phaseApScan, iterState, hs, hTry, hc, hOk, hsv, scanPhase_connect]
    · intro _
      simp [loopBody, phaseApScan, iterState, hs, hTry, hc, hOk, hsv, scanPhase_connect,
        scanPhase_saveCallbackCalls]
  · refine ⟨iterState (loopBody cfg st inp), ?_, ?_, ?_, ?_, ?_⟩
    · simp [loopBody, phaseApScan, iterState, hs, hTry, hc, hOk, hsv, scanPhase_connect]
    · simp [loopBody, phaseApScan, iterState, hs, hTry, hc, hOk, hsv, scanPhase_connect]
    · simp [loopBody, phaseApScan, iterState, hs, hTry, hc, hOk, hsv, scanPhase_connect,
        scanPhase_connectAttempts]
    · simp [loopBody, phaseApScan, iterState, hs, hTry, hc, hOk, hsv, scanPhase_connect]
    · intro h2
      exact absurd h2 hsv

/-- C2 counterexample: with `_tryConnectDuringConfigPortal` disabled, an
iteration that starts with the save-requested flag up clears the flag but
performs no connection attempt at all, because the source's
`_tryConnectDuringConfigPortal and connectWifi(_ssid, _pass)` condition
short-circuits past `connectWifi`. -/
theorem connect_branch_counterexample :
    cfgNoTry.tryConnectDuringConfigPortal = false
  ∧ tickSaveIdle.saveRequested = true
  ∧ (resultState (runLoop cfgNoTry (initWMState 0) [tickSaveIdle])).connect = false
  ∧ (resultState (runLoop cfgNoTry (initWMState 0) [tickSaveIdle])).connectAttempts = 0 := by
  refine ⟨rfl, rfl, rfl, rfl⟩

/-- C2 (amended): in the blocking portal loop, whenever the save-requested
flag is set and try-connect-during-config-portal is enabled (its default),
the flag is cleared and exactly one connection attempt with the pending
credentials is performed under the configured connect timeout; if that
attempt succeeds, the save-config callback is invoked (when registered)
and the portal exits as connected. -/
theorem connect_branch_amended (cfg : Config) (st : WMState) (inp : TickInput)
    (hTry : cfg.tryConnectDuringConfigPortal = true)
    (hs : inp.statusConnected = false)
    (hc : (st.connect || inp.saveRequested) = true) :
    ((iterState (loopBody cfg st inp)).connect = false
      ∧ (iterState (loopBody cfg st inp)).connectAttempts = st.connectAttempts + 1)
  ∧ (connectWifi cfg.connectTimeout inp.connectEnv = WL_CONNECTED →
      ∃ stEnd, loopBody cfg st inp = .brk stEnd
        ∧ stEnd.wifiStatusConnected = true
        ∧ (cfg.hasSaveCallback = true → stEnd.saveCallbackCalls = st.saveCallbackCalls + 1)
        ∧ ∀ rest : List TickInput, loopCond cfg st = true →
            runLoop cfg st (inp :: rest) = .exited true stEnd) := by
  refine ⟨loopBody_connect_clears cfg st inp hTry hs hc, ?_⟩
  intro hOk
  obtain ⟨stEnd, hbody, _hcn, _hat, hstat, hsave⟩ :=
    loopBody_connect_success cfg st inp hTry hs hc (by simpa using hOk)
  refine ⟨stEnd, hbody, hstat, hsave, ?_⟩
  intro rest hcond
  simp only [runLoop, hcond, if_true, hbody]
  rw [hstat]

/-- Witness for C2: a concrete submitted-credentials iteration whose
attempt succeeds clears the flag, counts one attempt, fires the save
callback, and exits the portal connected. -/
theorem connect_branch_amended_witness :
    (cfgDefault.tryConnectDuringConfigPortal = true
      ∧ tickSave.statusConnected = false
      ∧ (((initWMState 0).connect || tickSave.saveRequested) = true))
  ∧ (((iterState (loopBody cfgDefault (initWMState 0) tickSave)).connect = false
      ∧ (iterState (loopBody cfgDefault (initWMState 0) tickSave)).connectAttempts
          = (initWMState 0).connectAttempts + 1)
    ∧ (connectWifi cfgDefault.connectTimeout tickSave.connectEnv = WL_CONNECTED →
        ∃ stEnd, loopBody cfgDefault (initWMState 0) tickSave = .brk stEnd
          ∧ stEnd.wifiStatusConnected = true
          ∧ (cfgDefault.hasSaveCallback = true →
              stEnd.saveCallbackCalls = (initWMState 0).saveCallbackCalls + 1)
          ∧ ∀ rest : List TickInput, loopCond cfgDefault (initWMState 0) = true →
              runLoop cfgDefault (initWMState 0) (tickSave :: rest) = .exited true stEnd)) :=
  ⟨⟨rfl, rfl, rfl⟩, connect_branch_amended cfgDefault (initWMState 0) tickSave rfl rfl rfl⟩

/-- With the scan interval elapsed (or `scannow == 0`), the scan phase
disconnects, stamps the scan time, and refreshes the batch exactly when
the one-shot guards are all still set. -/
theorem scanPhase_elapsed (cfg : Config) (st : WMState) (inp : TickInput)
    (hcond : (st.scannow == 0 || decide (1000000 ≤ (st.now - st.scannow) % UL_MOD)) = true) :
    (scanPhase cfg st inp).disconnects = st.disconnects + 1
  ∧ (scanPhase cfg st inp).scannow = st.now
  ∧ ((st.shouldscan && st.wifiSSIDscan && st.tryScan) = false →
      (scanPhase cfg st inp).wifiSSIDs = st.wifiSSIDs
      ∧ (scanPhase cfg st inp).tryScan = st.tryScan)
  ∧ ((st.shouldscan && st.wifiSSIDscan && st.tryScan) = true →
      (scanPhase cfg st inp).tryScan = false
      ∧ (scanPhase cfg st inp).wifiSSIDs
          = (copySSIDInfo cfg inp.scanCount inp.scanned
              { st with disconnects := st.disconnects + 1 }).wifiSSIDs) := by
  by_cases hg : (st.shouldscan && st.wifiSSIDscan && st.tryScan) = true <;>
  by_cases ht : cfg.tryConnectDuringConfigPortal = true <;>
  simp [scanPhase, hcond, hg, ht]

/-- The later branches of the loop body touch neither the stored batch
nor the scan bookkeeping: those fields come out of the scan phase. -/
theorem loopBody_frame_scan (cfg : Config) (st : WMState) (inp : TickInput) :
    (iterState (loopBody cfg st inp)).disconnects
        = (phaseApScan cfg { st with connect := st.connect || inp.saveRequested } inp).disconnects
  ∧ (iterState (loopBody cfg st inp)).scannow
        = (phaseApScan cfg { st with connect := st.connect || inp.saveRequested } inp).scannow
  ∧ (iterState (loopBody cfg st inp)).wifiSSIDs
        = (phaseApScan cfg { st with connect := st.connect || inp.saveRequested } inp).wifiSSIDs
  ∧ (iterState (loopBody cfg st inp)).tryScan
        = (phaseApScan cfg { st with connect := st.connect || inp.saveRequested } inp).tryScan := by
  by_cases h1 : inp.statusConnected = true <;>
  by_cases h2 : (st.connect || inp.saveRequested) = true <;>
  by_cases h3 : cfg.tryConnectDuringConfigPortal = true <;>
  by_cases h4 : (connectWifi cfg.connectTimeout inp.connectEnv == WL_CONNECTED) = true <;>
  by_cases h5 : cfg.shouldBreakAfterConfig = true <;>
  by_cases h6 : cfg.hasSaveCallback = true <;>
  simp [loopBody, h1, h2, h3, h4, h5, h6, scanPhase_connect, apply_ite]

/-- C3 counterexample: two loop iterations, each with the scan interval
elapsed and a scan answer available; both disconnect (count 2), but the
stored batch after the second is still the first scan's [wAlpha], not the
[wBeta] a refresh of the second answer would store: the radio scan runs
only once, gated by the one-shot `try_scan`/`shouldscan` flags. -/
theorem scan_refresh_counterexample :
    (resultState c3run).disconnects = 2
  ∧ (resultState c3run).wifiSSIDs = [wAlpha]
  ∧ tickScanBeta.scanned = [wBeta]
  ∧ finalBatch cfgNoTry.removeDuplicateAPs 1 [wBeta] = [wBeta]
  ∧ wBeta.SSID ≠ wAlpha.SSID := by
  refine ⟨rfl, rfl, rfl, rfl, by decide⟩

/-- C3 (amended): on every elapse of the scan interval (and on the first
iteration, `scannow == 0`), the loop body disconnects any in-flight
station attempt and stamps the scan timestamp; the radio scan that
refreshes the stored batch, however, runs only while the one-shot guards
(`shouldscan`, `wifiSSIDscan`, `try_scan`) are all still set — it then
clears `try_scan`, so the refresh happens at most once, and later elapses
leave the stored batch unchanged. -/
theorem scan_elapse_amended (cfg : Config) (st : WMState) (inp : TickInput)
    (hcond : st.scannow = 0 ∨ 1000000 ≤ (st.now - st.scannow) % UL_MOD) :
    ((iterState (loopBody cfg st inp)).disconnects = st.disconnects + 1
      ∧ (iterState (loopBody cfg st inp)).scannow = st.now)
  ∧ ((st.shouldscan && st.wifiSSIDscan && st.tryScan) = false →
      (iterState (loopBody cfg st inp)).wifiSSIDs = st.wifiSSIDs
      ∧ (iterState (loopBody cfg st inp)).tryScan = st.tryScan)
  ∧ ((st.shouldscan && st.wifiSSIDscan && st.tryScan) = true →
      (iterState (loopBody cfg st inp)).tryScan = false
      ∧ (0 < inp.scanCount →
          (iterState (loopBody cfg st inp)).wifiSSIDs
            = finalBatch cfg.removeDuplicateAPs inp.scanCount inp.scanned)
      ∧ (inp.scanCount ≤ 0 →
          (iterState (loopBody cfg st inp)).wifiSSIDs = st.wifiSSIDs)) := by
  obtain ⟨hd, hsn, hw, ht⟩ := loopBody_frame_scan cfg st inp
  have hcondA : ((apSwitch { st with connect := st.connect || inp.saveRequested }).scannow == 0
      || decide (1000000 ≤
          ((apSwitch { st with connect := st.connect || inp.saveRequested }).now
            - (apSwitch { st with connect := st.connect || inp.saveRequested }).scannow)
          % UL_MOD)) = true := by
    rcases hcond with h | h <;> simp [h]
  have hsc := scanPhase_elapsed cfg
    (apSwitch { st with connect := st.connect || inp.saveRequested }) inp hcondA
  simp only [apSwitch_disconnects, apSwitch_scannow, apSwitch_now, apSwitch_shouldscan,
    apSwitch_wifiSSIDscan, apSwitch_tryScan, apSwitch_wifiSSIDs] at hsc
  obtain ⟨hsc1, hsc2, hsc3, hsc4⟩ := hsc
  simp only [phaseApScan] at hd hsn hw ht
  refine ⟨⟨?_, ?_⟩, ?_, ?_⟩
  · rw [hd, hsc1]
  · rw [hsn, hsc2]
  · intro hg
    have := hsc3 hg
    exact ⟨by rw [hw, this.1], by rw [ht, this.2]⟩
  · intro hg
    obtain ⟨hts, hwb⟩ := hsc4 hg
    refine ⟨by rw [ht, hts], ?_, ?_⟩
    · intro hn
      rw [hw, hwb, copySSIDInfo_wifiSSIDs _ _ _ _ hn]
    · intro hn
      rw [hw, hwb, copySSIDInfo_nonpos _ _ _ _ hn]

/-- Witness for C3 (amended): the first iteration of a concrete portal
session (scannow = 0, guards all set) disconnects once, stamps the scan
time, clears `try_scan`, and stores the scanned batch. -/
theorem scan_elapse_amended_witness :
    ((initWMState 7).scannow = 0 ∨ 1000000 ≤ ((initWMState 7).now - (initWMState 7).scannow) % UL_MOD)
  ∧ (((iterState (loopBody cfgDefault (initWMState 7) tickScanAlpha)).disconnects
        = (initWMState 7).disconnects + 1
      ∧ (iterState (loopBody cfgDefault (initWMState 7) tickScanAlpha)).scannow
        = (initWMState 7).now)
    ∧ (((initWMState 7).shouldscan && (initWMState 7).wifiSSIDscan && (initWMState 7).tryScan) = false →
        (iterState (loopBody cfgDefault (initWMState 7) tickScanAlpha)).wifiSSIDs
          = (initWMState 7).wifiSSIDs
        ∧ (iterState (loopBody cfgDefault (initWMState 7) tickScanAlpha)).tryScan
          = (initWMState 7).tryScan)
    ∧ (((initWMState 7).shouldscan && (initWMState 7).wifiSSIDscan && (initWMState 7).tryScan) = true →
        (iterState (loopBody cfgDefault (initWMState 7) tickScanAlpha)).tryScan = false
        ∧ (0 < tickScanAlpha.scanCount →
            (iterState (loopBody cfgDefault (initWMState 7) tickScanAlpha)).wifiSSIDs
              = finalBatch cfgDefault.removeDuplicateAPs tickScanAlpha.scanCount tickScanAlpha.scanned)
        ∧ (tickScanAlpha.scanCount ≤ 0 →
            (iterState (loopBody cfgDefault (initWMState 7) tickScanAlpha)).wifiSSIDs
              = (initWMState 7).wifiSSIDs))) :=
  ⟨Or.inl rfl,
   scan_elapse_amended cfgDefault (initWMState 7) tickScanAlpha (Or.inl rfl)⟩

/-- Witness for C1: a quiet one-iteration trace with timeout 0 keeps
looping; with timeout 5 and 10 ms elapsed the loop exits not-connected. -/
theorem portal_timeout_behavior_witness :
    (∃ stEnd, runLoop cfgDefault (initWMState 0) [tickQuiet] = .outOfFuel stEnd)
  ∧ runLoop cfgTimed (initWMState 10) [] = .exited false (initWMState 10) := by
  constructor
  · refine portal_timeout_behavior.1 cfgDefault (initWMState 0) [tickQuiet] rfl rfl ?_
    intro inp hinp
    rcases List.mem_singleton.mp hinp with rfl
    exact ⟨rfl, by decide⟩
  · exact portal_timeout_behavior.2 cfgTimed (initWMState 10) [] (by decide) (by decide)
      (by decide) rfl

end AsyncWM
